import Mathlib

/-
Verification of the geometry kernel of the Watch_Movement_Configurator
repository (src/configurator.py), a parametric gear-train layout tool.

Shallow embedding conventions:
* Python floats are modelled as real numbers (ℝ); Python ints as ℤ.
* `math.radians`, `math.cos`, `math.sin`, `math.hypot` become `radians`
  (defined below), `Real.cos`, `Real.sin` and `Real.sqrt (dx^2 + dy^2)`.
* Mutating methods become functions returning the updated value; the
  gear list owned by a `GearTrain` is threaded explicitly.
* A Python call that raises an exception is modelled by returning the
  state reached so far together with `some e : Option PyError`
  (in CPython the in-place mutations performed before the raise persist).
* The source spells the center field `ceneter` (a typo kept throughout
  configurator.py); the embedding keeps the source's spelling.
-/

namespace Configurator

/-- Errors the embedded code can raise.  `nameErrorIncrementAngle` models
the Python `NameError: name 'increment_angle' is not defined` raised by
line 110 of configurator.py, where `current_angle += increment_angle`
reads the bare name `increment_angle`: the module has no global of that
name and the method binds no local of that name (the dataclass field is
only reachable as `self.increment_angle`). -/
inductive PyError where
  | nameErrorIncrementAngle : PyError
deriving DecidableEq

/-- The `Gear` dataclass (configurator.py lines 34-50).  Source defaults:
`thickness_mm = 0.9`, `ceneter = (0.0, 0.0)`, `angle_deg = 0.0`. -/
structure Gear where
  name : String
  num_teeth : ℤ
  module_mm : ℝ
  thickness_mm : ℝ
  ceneter : ℝ × ℝ
  angle_deg : ℝ

noncomputable instance : Inhabited Gear :=
  ⟨{ name := "", num_teeth := 0, module_mm := 0, thickness_mm := 9 / 10,
     ceneter := (0, 0), angle_deg := 0 }⟩

/-- `Gear.pitch_diameter` (line 43-44): `self.num_teeth * self.module_mm`. -/
noncomputable def Gear.pitch_diameter (g : Gear) : ℝ :=
  (g.num_teeth : ℝ) * g.module_mm

/-- `Gear.radius` (line 45-46): `self.pitch_diameter() / 2.0`. -/
noncomputable def Gear.radius (g : Gear) : ℝ :=
  g.pitch_diameter / 2

/-- `Gear.bounding_circle` (line 47-48): `(self.ceneter, self.radius())`. -/
noncomputable def Gear.bounding_circle (g : Gear) : (ℝ × ℝ) × ℝ :=
  (g.ceneter, g.radius)

/-- `Gear.set_center` (line 49-50): `self.ceneter = (x, y)`. -/
def Gear.set_center (g : Gear) (x y : ℝ) : Gear :=
  { g with ceneter := (x, y) }

/-- `compute_pitch_diameter` (line 62-63). -/
noncomputable def compute_pitch_diameter (num_teeth : ℤ) (module_mm : ℝ) : ℝ :=
  (num_teeth : ℝ) * module_mm

/-- `compute_center_distance` (line 64-65):
`(gear1.pitch_diameter() + gear2.pitch_diameter()) / 2.0`. -/
noncomputable def compute_center_distance (gear1 gear2 : Gear) : ℝ :=
  (gear1.pitch_diameter + gear2.pitch_diameter) / 2

/-- `math.radians`: degrees to radians. -/
noncomputable def radians (deg : ℝ) : ℝ :=
  deg * Real.pi / 180

/-- `place_second_gear` (lines 66-71). -/
noncomputable def place_second_gear (gear1 gear2 : Gear) (angle_deg : ℝ) : ℝ × ℝ :=
  let center_distance := compute_center_distance gear1 gear2
  let angle_rad := radians angle_deg
  let x := gear1.ceneter.1 + center_distance * Real.cos angle_rad
  let y := gear1.ceneter.2 + center_distance * Real.sin angle_rad
  (x, y)

/-- `circles_overlap` (lines 77-83): `math.hypot(dx, dy) < r1 + r2 + clearance`.
Source default: `clearance = 0.0`. -/
def circles_overlap (center1 : ℝ × ℝ) (radius1 : ℝ) (center2 : ℝ × ℝ)
    (radius2 : ℝ) (clearance : ℝ) : Prop :=
  let dx := center1.1 - center2.1
  let dy := center1.2 - center2.2
  let distance := Real.sqrt (dx ^ 2 + dy ^ 2)
  distance < radius1 + radius2 + clearance

/-- The `GearTrain` dataclass (lines 88-91).  Source defaults:
`gears = []`, `increment_angle = 180.0`. -/
structure GearTrain where
  gears : List Gear
  increment_angle : ℝ

/-- `GearTrain.add_gear` (lines 93-94): append to the gear list. -/
def GearTrain.add_gear (tr : GearTrain) (gear : Gear) : GearTrain :=
  { tr with gears := tr.gears ++ [gear] }

/-- `GearTrain.compute_centers_linear_chain` (lines 96-110).

Control flow of the source, traced:
* line 101-102: `if not self.gears: return` — empty train is a no-op;
* line 103: `self.gears[0].set_center(*start_pos)`;
* line 104: `current_angle = start_angle_deg`;
* lines 105-110: `for i in range(1, len(self.gears))` — each iteration
  places gear `i` from gear `i-1` via `place_second_gear` and then executes
  line 110, `current_angle += increment_angle`.  `increment_angle` there is
  an unbound bare name (the field is `self.increment_angle`), so line 110
  raises `NameError` on the first iteration: for a train of one gear the
  loop body never runs and the call returns normally, while for two or more
  gears the call places gear 1 and then aborts with the NameError, leaving
  gears 2.. at their previous centers.  The mutations made before the raise
  persist, so the result pairs the partially updated train with the error. -/
noncomputable def GearTrain.compute_centers_linear_chain (tr : GearTrain) (start_pos : ℝ × ℝ)
    (start_angle_deg : ℝ) : GearTrain × Option PyError :=
  match tr.gears with
  | [] => (tr, none)
  | [g0] =>
      ({ tr with gears := [g0.set_center start_pos.1 start_pos.2] }, none)
  | g0 :: g1 :: rest =>
      let g0' := g0.set_center start_pos.1 start_pos.2
      let current_angle := start_angle_deg
      let new_center := place_second_gear g0' g1 current_angle
      let g1' := g1.set_center new_center.1 new_center.2
      ({ tr with gears := g0' :: g1' :: rest },
       some PyError.nameErrorIncrementAngle)

open Classical

/-- `GearTrain.check_collisions` (lines 112-126): the nested loops
`for i in range(len(self.gears))`, `for j in range(i + 1, len(self.gears))`
scan every index pair `i < j` (adjacent and non-adjacent alike) and collect
`(gears[i], gears[j])` whenever `circles_overlap` holds on the two gears'
centers and radii with the given clearance (classical decidability is used
for the real comparison).  Source default: `clearance_mm = 0.0`.
`getD _ default` stands for the always-in-bounds Python indexing
`self.gears[i]`. -/
noncomputable def GearTrain.check_collisions (tr : GearTrain)
    (clearance_mm : ℝ) : List (Gear × Gear) :=
  (List.range tr.gears.length).flatMap fun i =>
    (List.range' (i + 1) (tr.gears.length - (i + 1))).filterMap fun j =>
      let gear1 := tr.gears.getD i default
      let gear2 := tr.gears.getD j default
      if circles_overlap gear1.ceneter gear1.radius gear2.ceneter gear2.radius
          clearance_mm then
        some (gear1, gear2)
      else
        none

end Configurator

namespace Configurator

/-- C4: pitch_diameter always returns `num_teeth * module_mm` and radius
returns `pitch_diameter / 2`, recomputed from the current fields: the
invariant survives `set_center` and any update of `num_teeth`/`module_mm`. -/
theorem c4_derived_pitch_invariant :
    ∀ (g : Gear) (x y : ℝ) (t : ℤ) (m : ℝ),
      g.pitch_diameter = (g.num_teeth : ℝ) * g.module_mm ∧
      g.radius = g.pitch_diameter / 2 ∧
      (g.set_center x y).pitch_diameter =
        ((g.set_center x y).num_teeth : ℝ) * (g.set_center x y).module_mm ∧
      (g.set_center x y).pitch_diameter = g.pitch_diameter ∧
      (g.set_center x y).radius = g.radius ∧
      ({ g with num_teeth := t, module_mm := m } : Gear).pitch_diameter =
        (t : ℝ) * m ∧
      ({ g with num_teeth := t, module_mm := m } : Gear).radius =
        (t : ℝ) * m / 2 := by
  intro g x y t m
  exact ⟨rfl, rfl, rfl, rfl, rfl, rfl, rfl⟩

/-- C5: compute_center_distance equals half the sum of pitch diameters,
equals the sum of the radii, ignores both gears' centers, and is
symmetric in its two arguments. -/
theorem c5_center_distance_sum_of_radii :
    ∀ (g1 g2 : Gear) (x y : ℝ),
      compute_center_distance g1 g2 =
        (g1.pitch_diameter + g2.pitch_diameter) / 2 ∧
      compute_center_distance g1 g2 = g1.radius + g2.radius ∧
      compute_center_distance (g1.set_center x y) g2 =
        compute_center_distance g1 g2 ∧
      compute_center_distance g1 (g2.set_center x y) =
        compute_center_distance g1 g2 ∧
      compute_center_distance g1 g2 = compute_center_distance g2 g1 := by
  intro g1 g2 x y
  refine ⟨rfl, ?_, rfl, rfl, ?_⟩
  · simp only [compute_center_distance, Gear.radius]
    ring
  · simp only [compute_center_distance]
    ring

/-- C6: place_second_gear returns A's center displaced by the meshing center
distance `d` in the direction `angle_deg` (0° = +x axis, counter-clockwise,
converted to radians); when `d` is nonnegative the result lies at Euclidean
distance exactly `d` from A's current center; at 0° it is
`(A.x + d, A.y)` and at 90° it is `(A.x, A.y + d)`.  The embedding is
functional, so neither input gear is modified. -/
theorem c6_place_second_gear_direction (g1 g2 : Gear) (angle : ℝ)
    (h : 0 ≤ compute_center_distance g1 g2) :
    place_second_gear g1 g2 angle =
      (g1.ceneter.1 + compute_center_distance g1 g2 * Real.cos (radians angle),
       g1.ceneter.2 +
         compute_center_distance g1 g2 * Real.sin (radians angle)) ∧
    Real.sqrt (((place_second_gear g1 g2 angle).1 - g1.ceneter.1) ^ 2 +
        ((place_second_gear g1 g2 angle).2 - g1.ceneter.2) ^ 2) =
      compute_center_distance g1 g2 ∧
    place_second_gear g1 g2 0 =
      (g1.ceneter.1 + compute_center_distance g1 g2, g1.ceneter.2) ∧
    place_second_gear g1 g2 90 =
      (g1.ceneter.1, g1.ceneter.2 + compute_center_distance g1 g2) := by
  refine ⟨rfl, ?_, ?_, ?_⟩
  · simp only [place_second_gear]
    have key : (g1.ceneter.1 +
          compute_center_distance g1 g2 * Real.cos (radians angle) -
            g1.ceneter.1) ^ 2 +
        (g1.ceneter.2 +
            compute_center_distance g1 g2 * Real.sin (radians angle) -
              g1.ceneter.2) ^ 2 =
        compute_center_distance g1 g2 ^ 2 := by
      have hsc := Real.sin_sq_add_cos_sq (radians angle)
      nlinarith [hsc]
    rw [key, Real.sqrt_sq h]
  · have h0 : radians 0 = 0 := by
      simp [radians]
    simp [place_second_gear, h0]
  · have h90 : radians 90 = Real.pi / 2 := by
      simp only [radians]
      ring
    simp [place_second_gear, h90]

/-- Demonstration gears used by concrete witnesses: 20 and 40 teeth at
module 0.5 mm, both at the origin (radii 5 mm and 10 mm, meshing center
distance 15 mm). -/
noncomputable def demoGearA : Gear :=
  { name := "G1", num_teeth := 20, module_mm := 1 / 2,
    thickness_mm := 9 / 10, ceneter := (0, 0), angle_deg := 0 }

noncomputable def demoGearB : Gear :=
  { name := "G2", num_teeth := 40, module_mm := 1 / 2,
    thickness_mm := 9 / 10, ceneter := (0, 0), angle_deg := 0 }

/-- Witness for C6 at the demonstration gears and angle 0: the meshing
distance 15 is nonnegative and the placement lands at (15, 0). -/
theorem c6_place_second_gear_direction_witness :
    0 ≤ compute_center_distance demoGearA demoGearB ∧
      place_second_gear demoGearA demoGearB 0 = (15, 0) := by
  have h : 0 ≤ compute_center_distance demoGearA demoGearB := by
    norm_num [compute_center_distance, Gear.pitch_diameter, demoGearA,
      demoGearB]
  refine ⟨h, ?_⟩
  have h3 := (c6_place_second_gear_direction demoGearA demoGearB 0 h).2.2.1
  rw [h3]
  norm_num [compute_center_distance, Gear.pitch_diameter, demoGearA,
    demoGearB]

/-- C7: circles_overlap holds exactly when the Euclidean center distance is
strictly below `radius1 + radius2 + clearance`; tangent circles (distance
equal to the sum of radii) do not overlap at zero clearance; a clearance
can flip a separated pair to overlapping as soon as the distance drops
below the widened threshold; and the predicate is symmetric under swapping
the two circles. -/
theorem c7_circles_overlap_contract (center1 center2 : ℝ × ℝ)
    (radius1 radius2 clearance : ℝ) :
    (circles_overlap center1 radius1 center2 radius2 clearance ↔
      Real.sqrt ((center1.1 - center2.1) ^ 2 + (center1.2 - center2.2) ^ 2) <
        radius1 + radius2 + clearance) ∧
    (Real.sqrt ((center1.1 - center2.1) ^ 2 + (center1.2 - center2.2) ^ 2) =
        radius1 + radius2 →
      ¬circles_overlap center1 radius1 center2 radius2 0) ∧
    (radius1 + radius2 ≤
        Real.sqrt ((center1.1 - center2.1) ^ 2 +
          (center1.2 - center2.2) ^ 2) →
      Real.sqrt ((center1.1 - center2.1) ^ 2 + (center1.2 - center2.2) ^ 2) <
        radius1 + radius2 + clearance →
      ¬circles_overlap center1 radius1 center2 radius2 0 ∧
        circles_overlap center1 radius1 center2 radius2 clearance) ∧
    (circles_overlap center1 radius1 center2 radius2 clearance ↔
      circles_overlap center2 radius2 center1 radius1 clearance) := by
  refine ⟨Iff.rfl, ?_, ?_, ?_⟩
  · intro he
    simp only [circles_overlap, he]
    intro hlt
    linarith
  · intro hsep hlt
    constructor
    · simp only [circles_overlap]
      intro hbad
      linarith
    · exact hlt
  · simp only [circles_overlap]
    rw [show (center2.1 - center1.1) ^ 2 + (center2.2 - center1.2) ^ 2 =
        (center1.1 - center2.1) ^ 2 + (center1.2 - center2.2) ^ 2 from by
      ring]
    constructor
    · intro h
      linarith
    · intro h
      linarith

/-- Witness for C7 at concrete circles: tangent circles of radius 10 with
centers 20 apart do not overlap at zero clearance, and two radius-5 circles
with centers 11 apart overlap once a clearance of 2 is required. -/
theorem c7_circles_overlap_contract_witness :
    ¬circles_overlap (0, 0) 10 (20, 0) 10 0 ∧
      circles_overlap (0, 0) 5 (11, 0) 5 2 := by
  have ht := (c7_circles_overlap_contract (0, 0) (20, 0) 10 10 0).2.1
  have hm := (c7_circles_overlap_contract (0, 0) (11, 0) 5 5 2).1
  constructor
  · apply ht
    rw [show (((0 : ℝ), (0 : ℝ)).1 - ((20 : ℝ), (0 : ℝ)).1) ^ 2 +
        (((0 : ℝ), (0 : ℝ)).2 - ((20 : ℝ), (0 : ℝ)).2) ^ 2 =
          (20 : ℝ) ^ 2 from by norm_num]
    rw [Real.sqrt_sq (by norm_num : (0 : ℝ) ≤ 20)]
    norm_num
  · apply hm.mpr
    rw [show (((0 : ℝ), (0 : ℝ)).1 - ((11 : ℝ), (0 : ℝ)).1) ^ 2 +
        (((0 : ℝ), (0 : ℝ)).2 - ((11 : ℝ), (0 : ℝ)).2) ^ 2 =
          (11 : ℝ) ^ 2 from by norm_num]
    rw [Real.sqrt_sq (by norm_num : (0 : ℝ) ≤ 11)]
    norm_num

/-- C8: on an empty train, compute_centers_linear_chain returns normally
and leaves the train (gear list and increment_angle) unchanged. -/
theorem c8_empty_train_noop (tr : GearTrain) (start_pos : ℝ × ℝ)
    (start_angle_deg : ℝ) (h : tr.gears = []) :
    tr.compute_centers_linear_chain start_pos start_angle_deg = (tr, none) := by
  rcases tr with ⟨gears, inc⟩
  cases gears with
  | nil => rfl
  | cons g tl => simp at h

/-- Witness for C8: the empty train with the default 180° increment is
left untouched by a placement call. -/
theorem c8_empty_train_noop_witness :
    (GearTrain.mk [] 180).gears = [] ∧
      (GearTrain.mk [] 180).compute_centers_linear_chain (0, 0) 0 =
        (GearTrain.mk [] 180, none) :=
  ⟨rfl, c8_empty_train_noop (GearTrain.mk [] 180) (0, 0) 0 rfl⟩

/-- C10: on a single-gear train, compute_centers_linear_chain returns
normally, sets that gear's center to start_pos, and changes none of the
gear's other fields. -/
theorem c10_single_gear_placed_at_start (tr : GearTrain) (g : Gear)
    (p : ℝ × ℝ) (a : ℝ) (h : tr.gears = [g]) :
    tr.compute_centers_linear_chain p a =
      ({ tr with gears := [g.set_center p.1 p.2] }, none) ∧
    (g.set_center p.1 p.2).ceneter = p ∧
    (g.set_center p.1 p.2).name = g.name ∧
    (g.set_center p.1 p.2).num_teeth = g.num_teeth ∧
    (g.set_center p.1 p.2).module_mm = g.module_mm ∧
    (g.set_center p.1 p.2).thickness_mm = g.thickness_mm ∧
    (g.set_center p.1 p.2).angle_deg = g.angle_deg := by
  refine ⟨?_, Prod.mk.eta, rfl, rfl, rfl, rfl, rfl⟩
  simp only [GearTrain.compute_centers_linear_chain, h]

/-- Witness for C10: a one-gear train places its gear at (7, -3). -/
theorem c10_single_gear_placed_at_start_witness :
    (GearTrain.mk [demoGearA] 180).gears = [demoGearA] ∧
      (GearTrain.mk [demoGearA] 180).compute_centers_linear_chain (7, -3) 0 =
        (GearTrain.mk [demoGearA.set_center 7 (-3)] 180, none) ∧
      (demoGearA.set_center 7 (-3)).ceneter = ((7 : ℝ), (-3 : ℝ)) := by
  have h := c10_single_gear_placed_at_start (GearTrain.mk [demoGearA] 180)
    demoGearA (7, -3) 0 rfl
  exact ⟨rfl, h.1, h.2.1⟩

/-- The 3-wheel demonstration train of the spec and of the repository's
tests: 20, 30 and 40 teeth at module 1 mm (radii 10, 15, 20 mm), default
increment of 180°, all gears initially at the origin. -/
noncomputable def gear20 : Gear :=
  { name := "G1", num_teeth := 20, module_mm := 1, thickness_mm := 9 / 10,
    ceneter := (0, 0), angle_deg := 0 }

noncomputable def gear30 : Gear :=
  { name := "G2", num_teeth := 30, module_mm := 1, thickness_mm := 9 / 10,
    ceneter := (0, 0), angle_deg := 0 }

noncomputable def gear40 : Gear :=
  { name := "G3", num_teeth := 40, module_mm := 1, thickness_mm := 9 / 10,
    ceneter := (0, 0), angle_deg := 0 }

noncomputable def demoTrain : GearTrain :=
  { gears := [gear20, gear30, gear40], increment_angle := 180 }

/-- The 40-teeth wheel with its pre-call center moved to (5, 5); same
teeth and module as `gear40`. -/
noncomputable def gear40Moved : Gear :=
  { name := "G3", num_teeth := 40, module_mm := 1, thickness_mm := 9 / 10,
    ceneter := (5, 5), angle_deg := 0 }

noncomputable def demoTrainMoved : GearTrain :=
  { gears := [gear20, gear30, gear40Moved], increment_angle := 180 }

/-- C3 (code bug): on the 3-gear train, the placement loop aborts with the
NameError from line 110 (the bare name `increment_angle`) at the end of its
first iteration: the call reports the error, gear 0 is at the start
position and gear 1 at (25, 0), but gear 2 is never placed and stays at
the origin instead of being placed from gear 1 with the advanced angle. -/
theorem c3_chain_loop_raises_nameerror :
    (demoTrain.compute_centers_linear_chain (0, 0) 0).2 =
        some PyError.nameErrorIncrementAngle ∧
      ((demoTrain.compute_centers_linear_chain (0, 0) 0).1.gears.map
          Gear.ceneter) = [(0, 0), (25, 0), (0, 0)] := by
  constructor
  · rfl
  · have h0 : radians 0 = 0 := by simp [radians]
    simp [demoTrain, GearTrain.compute_centers_linear_chain, gear20, gear30,
      gear40, place_second_gear, Gear.set_center, compute_center_distance,
      Gear.pitch_diameter, h0]
    norm_num

/-- C2 (code bug): on the concrete (20, 30, 40)-teeth module-1 train, the
call raises the NameError instead of returning normally, and gear 2's
center remains (0, 0) — not the (-10, 0) the claim requires. -/
theorem c2_three_gear_example_diverges :
    ((demoTrain.compute_centers_linear_chain (0, 0) 0).1.gears.getD 2
        default).ceneter = (0, 0) ∧
      ((0 : ℝ), (0 : ℝ)) ≠ ((-10 : ℝ), (0 : ℝ)) ∧
      (demoTrain.compute_centers_linear_chain (0, 0) 0).2 ≠ none := by
  refine ⟨rfl, ?_, ?_⟩
  · intro hbad
    rw [Prod.mk.injEq] at hbad
    norm_num at hbad
  · show (some PyError.nameErrorIncrementAngle : Option PyError) ≠ none
    simp

/-- `circles_overlap` unfolded to its distance comparison (helper). -/
theorem circles_overlap_dist_lt (c1 : ℝ × ℝ) (r1 : ℝ) (c2 : ℝ × ℝ)
    (r2 clearance : ℝ) :
    circles_overlap c1 r1 c2 r2 clearance ↔
      Real.sqrt ((c1.1 - c2.1) ^ 2 + (c1.2 - c2.2) ^ 2) <
        r1 + r2 + clearance :=
  Iff.rfl

/-- The 30- and 40-teeth wheels at the centers (25, 0) and (-10, 0) the
spec's example layout assigns them; together with `gear20` at the origin
they form the layout on which gears 0 and 2 overlap while both adjacent
pairs are exactly tangent. -/
noncomputable def placedGear30 : Gear :=
  { name := "G2", num_teeth := 30, module_mm := 1, thickness_mm := 9 / 10,
    ceneter := (25, 0), angle_deg := 0 }

noncomputable def placedGear40 : Gear :=
  { name := "G3", num_teeth := 40, module_mm := 1, thickness_mm := 9 / 10,
    ceneter := (-10, 0), angle_deg := 0 }

noncomputable def placedTrain : GearTrain :=
  { gears := [gear20, placedGear30, placedGear40], increment_angle := 180 }

/-- C1 (code bug): check_collisions scans every index pair `i < j`, not
only adjacent ones.  On the example layout it returns exactly the
non-adjacent pair (gear 0, gear 2) — the pair the claim says can never
appear in the result. -/
theorem c1_check_collisions_returns_nonadjacent_pair :
    placedTrain.check_collisions 0 = [(gear20, placedGear40)] ∧
      placedTrain.gears.getD 0 default = gear20 ∧
      placedTrain.gears.getD 2 default = placedGear40 := by
  have h01 : ¬circles_overlap gear20.ceneter gear20.radius
      placedGear30.ceneter placedGear30.radius 0 := by
    rw [circles_overlap_dist_lt]
    rw [show (gear20.ceneter.1 - placedGear30.ceneter.1) ^ 2 +
        (gear20.ceneter.2 - placedGear30.ceneter.2) ^ 2 = (25 : ℝ) ^ 2 from
      by norm_num [gear20, placedGear30]]
    rw [Real.sqrt_sq (by norm_num : (0 : ℝ) ≤ 25)]
    norm_num [gear20, placedGear30, Gear.radius, Gear.pitch_diameter]
  have h02 : circles_overlap gear20.ceneter gear20.radius
      placedGear40.ceneter placedGear40.radius 0 := by
    rw [circles_overlap_dist_lt]
    rw [show (gear20.ceneter.1 - placedGear40.ceneter.1) ^ 2 +
        (gear20.ceneter.2 - placedGear40.ceneter.2) ^ 2 = (10 : ℝ) ^ 2 from
      by norm_num [gear20, placedGear40]]
    rw [Real.sqrt_sq (by norm_num : (0 : ℝ) ≤ 10)]
    norm_num [gear20, placedGear40, Gear.radius, Gear.pitch_diameter]
  have h12 : ¬circles_overlap placedGear30.ceneter placedGear30.radius
      placedGear40.ceneter placedGear40.radius 0 := by
    rw [circles_overlap_dist_lt]
    rw [show (placedGear30.ceneter.1 - placedGear40.ceneter.1) ^ 2 +
        (placedGear30.ceneter.2 - placedGear40.ceneter.2) ^ 2 =
          (35 : ℝ) ^ 2 from by norm_num [placedGear30, placedGear40]]
    rw [Real.sqrt_sq (by norm_num : (0 : ℝ) ≤ 35)]
    norm_num [placedGear30, placedGear40, Gear.radius, Gear.pitch_diameter]
  have hlen : placedTrain.gears.length = 3 := rfl
  have hg0 : placedTrain.gears.getD 0 default = gear20 := rfl
  have hg1 : placedTrain.gears.getD 1 default = placedGear30 := rfl
  have hg2 : placedTrain.gears.getD 2 default = placedGear40 := rfl
  have h01' : ¬circles_overlap (placedTrain.gears.getD 0 default).ceneter
      (placedTrain.gears.getD 0 default).radius
      (placedTrain.gears.getD 1 default).ceneter
      (placedTrain.gears.getD 1 default).radius 0 := by
    rw [hg0, hg1]; exact h01
  have h02' : circles_overlap (placedTrain.gears.getD 0 default).ceneter
      (placedTrain.gears.getD 0 default).radius
      (placedTrain.gears.getD 2 default).ceneter
      (placedTrain.gears.getD 2 default).radius 0 := by
    rw [hg0, hg2]; exact h02
  have h12' : ¬circles_overlap (placedTrain.gears.getD 1 default).ceneter
      (placedTrain.gears.getD 1 default).radius
      (placedTrain.gears.getD 2 default).ceneter
      (placedTrain.gears.getD 2 default).radius 0 := by
    rw [hg1, hg2]; exact h12
  constructor
  · simp only [GearTrain.check_collisions, hlen]
    rw [show List.range 3 = [0, 1, 2] from rfl]
    simp only [List.flatMap_cons, List.flatMap_nil]
    rw [show List.range' (0 + 1) (3 - (0 + 1)) = [1, 2] from rfl,
      show List.range' (1 + 1) (3 - (1 + 1)) = [2] from rfl,
      show List.range' (2 + 1) (3 - (2 + 1)) = ([] : List ℕ) from rfl]
    simp only [List.filterMap_cons, List.filterMap_nil]
    rw [if_neg h01', if_pos h02', if_neg h12']
    rw [hg0, hg2]
    rfl
  · exact ⟨hg0, hg2⟩

/-- C9 (amended): compute_centers_linear_chain is idempotent — rerunning
it from the state (and error outcome) produced by a first run with the same
arguments reproduces exactly that state and outcome — and the final centers
are a pure function of the gears' teeth/module sequence, start_pos,
start_angle_deg and the pre-call centers of gears 2 and beyond: two trains
agreeing on those (even with different increment_angle values, which the
aborted loop never reads) end with identical center lists.  The final
centers are NOT a function of the claim's listed inputs alone, because the
line-110 NameError leaves gears 2.. at their pre-call centers. -/
theorem c9_chain_idempotent_inputs (tr tr' : GearTrain) (p : ℝ × ℝ)
    (a : ℝ)
    (hseq : tr.gears.map (fun g => (g.num_teeth, g.module_mm)) =
      tr'.gears.map (fun g => (g.num_teeth, g.module_mm)))
    (hrest : (tr.gears.drop 2).map Gear.ceneter =
      (tr'.gears.drop 2).map Gear.ceneter) :
    ((tr.compute_centers_linear_chain p a).1).compute_centers_linear_chain
        p a =
      tr.compute_centers_linear_chain p a ∧
    (tr.compute_centers_linear_chain p a).1.gears.map Gear.ceneter =
      (tr'.compute_centers_linear_chain p a).1.gears.map Gear.ceneter := by
  constructor
  · rcases tr with ⟨gears, inc⟩
    cases gears with
    | nil => rfl
    | cons g0 tl =>
      cases tl with
      | nil => rfl
      | cons g1 rest => rfl
  · rcases tr with ⟨gears, inc⟩
    rcases tr' with ⟨gears', inc'⟩
    cases gears with
    | nil =>
      cases gears' with
      | nil => rfl
      | cons h0 t0 => simp at hseq
    | cons g0 tl =>
      cases gears' with
      | nil => simp at hseq
      | cons g0' tl' =>
        simp only [List.map_cons, List.cons.injEq, Prod.mk.injEq] at hseq
        obtain ⟨⟨hn0, hm0⟩, hseqtl⟩ := hseq
        cases tl with
        | nil =>
          cases tl' with
          | nil => rfl
          | cons h1 t1 => simp at hseqtl
        | cons g1 rest =>
          cases tl' with
          | nil => simp at hseqtl
          | cons g1' rest' =>
            simp only [List.map_cons, List.cons.injEq, Prod.mk.injEq]
              at hseqtl
            obtain ⟨⟨hn1, hm1⟩, _⟩ := hseqtl
            simp only [List.drop_succ_cons, List.drop_zero] at hrest
            simp only [GearTrain.compute_centers_linear_chain,
              place_second_gear, compute_center_distance,
              Gear.pitch_diameter, Gear.set_center, List.map_cons]
            rw [hn0, hm0, hn1, hm1, hrest]

/-- Witness for C9 (amended), at the demonstration train against the same
gears with increment_angle 90 instead of 180: both hypotheses hold by
computation, the second run reproduces the first run's state, and the
final centers agree despite the differing increment_angle. -/
theorem c9_chain_idempotent_inputs_witness :
    demoTrain.gears.map (fun g => (g.num_teeth, g.module_mm)) =
        (GearTrain.mk [gear20, gear30, gear40] 90).gears.map
          (fun g => (g.num_teeth, g.module_mm)) ∧
      (demoTrain.gears.drop 2).map Gear.ceneter =
        ((GearTrain.mk [gear20, gear30, gear40] 90).gears.drop 2).map
          Gear.ceneter ∧
      (((demoTrain.compute_centers_linear_chain (0, 0)
              0).1).compute_centers_linear_chain (0, 0) 0 =
          demoTrain.compute_centers_linear_chain (0, 0) 0 ∧
        (demoTrain.compute_centers_linear_chain (0, 0) 0).1.gears.map
            Gear.ceneter =
          ((GearTrain.mk [gear20, gear30, gear40]
                90).compute_centers_linear_chain (0, 0) 0).1.gears.map
            Gear.ceneter) :=
  ⟨rfl, rfl,
    c9_chain_idempotent_inputs demoTrain
      (GearTrain.mk [gear20, gear30, gear40] 90) (0, 0) 0 rfl rfl⟩

/-- Counterexample to C9 as stated: `demoTrain` and `demoTrainMoved` agree
on the gear sequence's teeth/module, on increment_angle, and are run with
the same start_pos and start_angle_deg, yet their final center lists
differ (gear 2 ends at (0, 0) in one and at (5, 5) in the other, because
the line-110 NameError aborts placement before gear 2 is ever touched).
So the final centers are not a pure function of the claim's listed
inputs. -/
theorem c9_pure_function_counterexample :
    demoTrain.gears.map (fun g => (g.num_teeth, g.module_mm)) =
        demoTrainMoved.gears.map (fun g => (g.num_teeth, g.module_mm)) ∧
      demoTrain.increment_angle = demoTrainMoved.increment_angle ∧
      (demoTrain.compute_centers_linear_chain (0, 0) 0).1.gears.map
          Gear.ceneter ≠
        (demoTrainMoved.compute_centers_linear_chain (0, 0) 0).1.gears.map
          Gear.ceneter := by
  refine ⟨rfl, rfl, ?_⟩
  intro hbad
  have h1 : ((demoTrain.compute_centers_linear_chain (0, 0) 0).1.gears.map
      Gear.ceneter).getD 2 (0, 0) = ((0 : ℝ), (0 : ℝ)) := rfl
  have h2 : ((demoTrainMoved.compute_centers_linear_chain (0,
      0) 0).1.gears.map Gear.ceneter).getD 2 (0, 0) =
      ((5 : ℝ), (5 : ℝ)) := rfl
  rw [hbad, h2] at h1
  rw [Prod.mk.injEq] at h1
  norm_num at h1

end Configurator
